import Mathlib

/-!
Verification of the Aegis asteroid-impact backend core.

This file gives a shallow embedding of the two core modules of the
repository — `impact_calculator.py` and `orbital_calculator.py` — and
proves the stated properties of the specification against it.

Modelling conventions:
* Python floats are modelled as exact numbers: ℚ where only comparisons,
  grid arithmetic and validation occur (orbital module inputs/times), and
  ℝ where the formulas genuinely need π or real powers (impact formulas,
  3-D coordinates).  `math.isfinite` checks are vacuously true in this
  model (ℚ and ℝ have no NaN/inf), and `isinstance` checks are enforced
  by typing.
* Python exceptions are modelled by `Except CalcError`; each distinct
  `raise` site gets its own `CalcError` constructor (the spec's error
  taxonomy).
* Calls into the external poliastro/astropy libraries (orbit propagation,
  Earth ephemeris, state-vector → element conversion) are modelled as
  oracle function parameters returning `Option` (`none` = the library
  call raised).  Everything around the oracles is translated from the
  source.
-/

/-- Error kinds, one per distinct `raise` site of the two modules
(`ImpactCalculationError` / `OrbitalCalculationError` message families). -/
inductive CalcError where
  | missingOrbitSection
  | missingElementsSection
  | missingEpoch
  | invalidEpoch
  | epochOutOfRange
  | missingElements (names : List String)
  | invalidSemiMajorAxis
  | invalidEccentricity
  | invalidInclination
  | invalidPointCount
  | pointCountTooSmall
  | pointCountTooLarge
  | invalidTimeRange
  | invalidDuration
  | timeCountMismatch
  | emptyTimes
  | emptyTrajectory
  | earthPositionUnavailable
  | ephemerisDegraded
  | syncLengthMismatch
  | pointCountMismatch
  | diameterNotPositive
  | diameterTooLarge
  | velocityNotPositive
  | velocityTooHigh
  | densityNotPositive
  | densityTooHigh
  | massNotPositive
  | energyNotPositive
  | targetDensityNotPositive
  | deflectionFailed
  deriving DecidableEq, Repr

/-! ## Impact physics module (`impact_calculator.py`)

Inputs and outputs are ℝ (Python floats); the `isfinite` and
`isinstance` guards of the source are vacuous here, the ordering
checks are kept verbatim and in source order. -/

/-- `validate_impact_parameters(diameter_km, velocity_kps, density_kg_m3)`:
the chain of range checks of `impact_calculator.py`, in source order. -/
noncomputable def validate_impact_parameters (diameter_km velocity_kps density_kg_m3 : ℝ) :
    Except CalcError Unit :=
  if diameter_km ≤ 0 then .error .diameterNotPositive
  else if 1000 < diameter_km then .error .diameterTooLarge
  else if velocity_kps ≤ 0 then .error .velocityNotPositive
  else if 100 < velocity_kps then .error .velocityTooHigh
  else if density_kg_m3 ≤ 0 then .error .densityNotPositive
  else if 20000 < density_kg_m3 then .error .densityTooHigh
  else .ok ()

/-- `calculate_mass(diameter_km, density_kg_m3)`: validates (with the
dummy velocity `1.0` of the source) then computes spherical mass. -/
noncomputable def calculate_mass (diameter_km density_kg_m3 : ℝ) : Except CalcError ℝ :=
  match validate_impact_parameters diameter_km 1 density_kg_m3 with
  | .error e => .error e
  | .ok _ =>
    let diameter_m := diameter_km * 1000
    let radius_m := diameter_m / 2
    let volume_m3 := (4 / 3) * Real.pi * radius_m ^ 3
    .ok (density_kg_m3 * volume_m3)

/-- `calculate_kinetic_energy(mass_kg, velocity_kps)`: only positivity
(and vacuous finiteness) checks, then `0.5 * m * (v*1000)**2`. -/
noncomputable def calculate_kinetic_energy (mass_kg velocity_kps : ℝ) : Except CalcError ℝ :=
  if mass_kg ≤ 0 then .error .massNotPositive
  else if velocity_kps ≤ 0 then .error .velocityNotPositive
  else .ok (0.5 * mass_kg * (velocity_kps * 1000) ^ 2)

/-- `calculate_crater_diameter(kinetic_energy_j, target_density_kg_m3)`:
scaling law `0.25 * (E / (rho * 9.81)) ** (1/3.4)` (real power). -/
noncomputable def calculate_crater_diameter (kinetic_energy_j target_density_kg_m3 : ℝ) :
    Except CalcError ℝ :=
  if kinetic_energy_j ≤ 0 then .error .energyNotPositive
  else if target_density_kg_m3 ≤ 0 then .error .targetDensityNotPositive
  else .ok (0.25 * (kinetic_energy_j / (target_density_kg_m3 * 9.81)) ^ ((1 : ℝ) / 3.4))

/-- `ImpactResults` dataclass. -/
structure ImpactResults where
  crater_diameter_meters : ℝ
  impact_energy_joules : ℝ
  mass_kg : ℝ

/-- `calculate_impact_effects`: full validation, then the
mass → energy → crater chain of the source. -/
noncomputable def calculate_impact_effects (diameter_km velocity_kps : ℝ)
    (asteroid_density_kg_m3 target_density_kg_m3 : ℝ) : Except CalcError ImpactResults :=
  match validate_impact_parameters diameter_km velocity_kps asteroid_density_kg_m3 with
  | .error e => .error e
  | .ok _ =>
    if target_density_kg_m3 ≤ 0 then .error .targetDensityNotPositive
    else
      match calculate_mass diameter_km asteroid_density_kg_m3 with
      | .error e => .error e
      | .ok mass_kg =>
        match calculate_kinetic_energy mass_kg velocity_kps with
        | .error e => .error e
        | .ok kinetic_energy_j =>
          match calculate_crater_diameter kinetic_energy_j target_density_kg_m3 with
          | .error e => .error e
          | .ok crater_diameter_m =>
            .ok { crater_diameter_meters := crater_diameter_m
                  impact_energy_joules := kinetic_energy_j
                  mass_kg := mass_kg }

/-- Validation succeeds exactly on the in-range box. -/
theorem validate_impact_parameters_ok_iff (d v ρ : ℝ) :
    validate_impact_parameters d v ρ = .ok () ↔
      (0 < d ∧ d ≤ 1000 ∧ 0 < v ∧ v ≤ 100 ∧ 0 < ρ ∧ ρ ≤ 20000) := by
  constructor
  · intro h
    unfold validate_impact_parameters at h
    split_ifs at h with h1 h2 h3 h4 h5 h6
    exact ⟨by linarith, by linarith, by linarith, by linarith, by linarith, by linarith⟩
  · rintro ⟨c1, c2, c3, c4, c5, c6⟩
    unfold validate_impact_parameters
    rw [if_neg (by linarith), if_neg (by linarith), if_neg (by linarith),
      if_neg (by linarith), if_neg (by linarith), if_neg (by linarith)]

/-- Claim C3: for in-range inputs, `calculate_impact_effects` returns
`mass = rho_a * (4/3) * pi * (d*1000/2)^3`,
`energy = 0.5 * mass * (v*1000)^2` and
`crater = 0.25 * (energy / (rho_t * 9.81)) ^ (1/3.4)`,
chaining mass → energy → crater in that order. -/
theorem calculate_impact_effects_formulas (d v ρa ρt : ℝ)
    (hd0 : 0 < d) (hd1 : d ≤ 1000) (hv0 : 0 < v) (hv1 : v ≤ 100)
    (ha0 : 0 < ρa) (ha1 : ρa ≤ 20000) (ht0 : 0 < ρt) (_ht1 : ρt ≤ 20000) :
    calculate_impact_effects d v ρa ρt =
      .ok { mass_kg := ρa * (4 / 3) * Real.pi * (d * 1000 / 2) ^ 3
            impact_energy_joules :=
              0.5 * (ρa * (4 / 3) * Real.pi * (d * 1000 / 2) ^ 3) * (v * 1000) ^ 2
            crater_diameter_meters :=
              0.25 * ((0.5 * (ρa * (4 / 3) * Real.pi * (d * 1000 / 2) ^ 3) * (v * 1000) ^ 2)
                / (ρt * 9.81)) ^ ((1 : ℝ) / 3.4) } := by
  have hmass : (0 : ℝ) < ρa * (4 / 3 * Real.pi * (d * 1000 / 2) ^ 3) := by positivity
  have henergy :
      (0 : ℝ) < 0.5 * (ρa * (4 / 3 * Real.pi * (d * 1000 / 2) ^ 3)) * (v * 1000) ^ 2 := by
    positivity
  have hva : validate_impact_parameters d v ρa = .ok () :=
    (validate_impact_parameters_ok_iff d v ρa).mpr ⟨hd0, hd1, hv0, hv1, ha0, ha1⟩
  have hvm : validate_impact_parameters d 1 ρa = .ok () :=
    (validate_impact_parameters_ok_iff d 1 ρa).mpr
      ⟨hd0, hd1, by norm_num, by norm_num, ha0, ha1⟩
  simp only [calculate_impact_effects, calculate_mass, calculate_kinetic_energy,
    calculate_crater_diameter, hva, hvm, if_neg (not_le.mpr ht0), if_neg (not_le.mpr hmass),
    if_neg (not_le.mpr hv0), if_neg (not_le.mpr henergy), Except.ok.injEq,
    ImpactResults.mk.injEq]
  refine ⟨?_, by ring, by ring⟩
  congr 1
  congr 1
  ring

/-- Witness for C3 at `d = 1, v = 20, rho_a = 3000, rho_t = 2500`. -/
theorem calculate_impact_effects_formulas_witness :
    ((0 : ℝ) < 1 ∧ (1 : ℝ) ≤ 1000 ∧ (0 : ℝ) < 20 ∧ (20 : ℝ) ≤ 100 ∧
      (0 : ℝ) < 3000 ∧ (3000 : ℝ) ≤ 20000 ∧ (0 : ℝ) < 2500 ∧ (2500 : ℝ) ≤ 20000) ∧
    calculate_impact_effects 1 20 3000 2500 =
      .ok { mass_kg := 3000 * (4 / 3) * Real.pi * ((1 : ℝ) * 1000 / 2) ^ 3
            impact_energy_joules :=
              0.5 * (3000 * (4 / 3) * Real.pi * ((1 : ℝ) * 1000 / 2) ^ 3) * ((20 : ℝ) * 1000) ^ 2
            crater_diameter_meters :=
              0.25 * ((0.5 * (3000 * (4 / 3) * Real.pi * ((1 : ℝ) * 1000 / 2) ^ 3)
                * ((20 : ℝ) * 1000) ^ 2) / (2500 * 9.81)) ^ ((1 : ℝ) / 3.4) } :=
  ⟨⟨by norm_num, by norm_num, by norm_num, by norm_num, by norm_num, by norm_num,
      by norm_num, by norm_num⟩,
    calculate_impact_effects_formulas 1 20 3000 2500 (by norm_num) (by norm_num)
      (by norm_num) (by norm_num) (by norm_num) (by norm_num) (by norm_num) (by norm_num)⟩

/-- Claim C9: `calculate_kinetic_energy` itself has no upper velocity
bound — it succeeds for every positive mass and every positive velocity,
even above 100 km/s — whereas `calculate_impact_effects` rejects any
`velocity_kps > 100` (with the typed velocity-too-high error) before
computing anything, provided the diameter checked before it is in range. -/
theorem kinetic_energy_unbounded_orchestration_bounded
    (m v d ρa ρt w : ℝ) (hm : 0 < m) (hv : 0 < v)
    (hd0 : 0 < d) (hd1 : d ≤ 1000) (hw : 100 < w) :
    calculate_kinetic_energy m v = .ok (0.5 * m * (v * 1000) ^ 2) ∧
    calculate_impact_effects d w ρa ρt = .error .velocityTooHigh := by
  constructor
  · unfold calculate_kinetic_energy
    rw [if_neg (by linarith), if_neg (by linarith)]
  · unfold calculate_impact_effects validate_impact_parameters
    rw [if_neg (by linarith), if_neg (by linarith), if_neg (by linarith), if_pos hw]

/-- Witness for C9 at the spec's own example: mass `1`, velocity `150`
succeeds in `calculate_kinetic_energy` while `calculate_impact_effects`
rejects velocity `150`. -/
theorem kinetic_energy_unbounded_orchestration_bounded_witness :
    calculate_kinetic_energy 1 150 = .ok (0.5 * 1 * ((150 : ℝ) * 1000) ^ 2) ∧
    calculate_impact_effects 1 150 3000 2500 = .error .velocityTooHigh :=
  kinetic_energy_unbounded_orchestration_bounded 1 150 1 3000 2500 150
    (by norm_num) (by norm_num) (by norm_num) (by norm_num) (by norm_num)

/-! ## Orbital elements module (`orbital_calculator.py`)

Element values, angles and times (Julian dates / day offsets) are ℝ
(Python floats); only comparisons, grid arithmetic and `% 360`
normalization happen on them, all exact here. -/

/-- `OrbitalElements` dataclass. -/
structure OrbitalElements where
  semi_major_axis : ℝ
  eccentricity : ℝ
  inclination : ℝ
  longitude_ascending_node : ℝ
  argument_periapsis : ℝ
  mean_anomaly : ℝ
  epoch : ℝ

/-- One entry of the `orbit.elements` array of a NASA response.
`value = none` models an entry whose `value` fails `float()` parsing
(the source skips it with a warning). -/
structure NasaElement where
  name : String
  value : Option ℝ

/-- The parts of a NASA response that `extract_orbital_elements` reads,
with the `orbit` / `elements` / `epoch` sections present (the
missing-section errors of the source are purely structural and are not
at stake in any claim).  `epoch = none` models an epoch string that
fails `float()` parsing. -/
structure NasaResponse where
  epoch : Option ℝ
  elements : List NasaElement

/-- Python's `x % 360.0` for a positive modulus: result in `[0, 360)`. -/
noncomputable def normAngle (x : ℝ) : ℝ := x - 360 * (⌊x / 360⌋ : ℝ)

/-- The `elements_dict` lookup of the source: entries with unparsable
values are skipped, and — dict semantics — the last parsable entry with
a given name wins. -/
def lookupElement (elems : List NasaElement) (key : String) : Option ℝ :=
  match elems with
  | [] => none
  | el :: rest =>
    match lookupElement rest key with
    | some v => some v
    | none =>
      match el.value with
      | some v => if el.name = key then some v else none
      | none => none

/-- The required element names that are absent from the parsed dict. -/
def missingElementKeys (elems : List NasaElement) : List String :=
  ["a", "e", "i", "om", "w", "ma"].filter fun k => (lookupElement elems k).isNone

/-- `extract_orbital_elements(nasa_response)`: epoch parse + window
check first, then required-element lookup, range checks and angle
normalization, in source order. -/
noncomputable def extract_orbital_elements (resp : NasaResponse) :
    Except CalcError OrbitalElements :=
  match resp.epoch with
  | none => .error .invalidEpoch
  | some epoch =>
    if epoch < 2415020.5 ∨ epoch > 2488070.5 then .error .epochOutOfRange
    else
      match lookupElement resp.elements "a", lookupElement resp.elements "e",
          lookupElement resp.elements "i", lookupElement resp.elements "om",
          lookupElement resp.elements "w", lookupElement resp.elements "ma" with
      | some a, some e, some i, some om, some w, some ma =>
        if a ≤ 0 then .error .invalidSemiMajorAxis
        else if e < 0 ∨ 1 ≤ e then .error .invalidEccentricity
        else if i < 0 ∨ 180 < i then .error .invalidInclination
        else
          .ok { semi_major_axis := a, eccentricity := e, inclination := i
                longitude_ascending_node := normAngle om
                argument_periapsis := normAngle w
                mean_anomaly := normAngle ma
                epoch := epoch }
      | _, _, _, _, _, _ => .error (.missingElements (missingElementKeys resp.elements))

/-- `validate_orbital_elements(elements)`: the physical-consistency
re-check used by `calculate_trajectory` (the finiteness loop is vacuous
here and the epoch check there only logs a warning). -/
noncomputable def validate_orbital_elements (el : OrbitalElements) : Except CalcError Unit :=
  if el.semi_major_axis ≤ 0 then .error .invalidSemiMajorAxis
  else if el.eccentricity < 0 ∨ 1 ≤ el.eccentricity then .error .invalidEccentricity
  else if el.inclination < 0 ∨ 180 < el.inclination then .error .invalidInclination
  else .ok ()

/-- The data-model invariant of the spec for `OrbitalElements` (all
fields finite — vacuous here — plus the range constraints). -/
def ElementsValid (el : OrbitalElements) : Prop :=
  0 < el.semi_major_axis ∧ 0 ≤ el.eccentricity ∧ el.eccentricity < 1 ∧
    0 ≤ el.inclination ∧ el.inclination ≤ 180 ∧
    2415020.5 ≤ el.epoch ∧ el.epoch ≤ 2488070.5

/-- `create_time_range(start_time, end_time, num_points)`: validation
chain then the evenly spaced grid `start + i * step`,
`step = (end - start) / (num_points - 1)`.  `num_points` is ℤ (a Python
int); the `isinstance`/finiteness guards are vacuous here. -/
noncomputable def create_time_range (start_time end_time : ℝ) (num_points : ℤ) :
    Except CalcError (List ℝ) :=
  if num_points ≤ 0 then .error .invalidPointCount
  else if num_points < 2 then .error .pointCountTooSmall
  else if 10000 < num_points then .error .pointCountTooLarge
  else if end_time ≤ start_time then .error .invalidTimeRange
  else
    let total_duration := end_time - start_time
    if total_duration ≤ 0 then .error .invalidDuration
    else
      let time_step := total_duration / ((num_points : ℝ) - 1)
      let times := (List.range num_points.toNat).map
        fun (i : ℕ) => start_time + (i : ℝ) * time_step
      if (times.length : ℤ) ≠ num_points then .error .timeCountMismatch
      else if times.isEmpty then .error .emptyTimes
      else .ok times

/-- A NASA-response element list whose six required entries are all
present, parsable and in range (used by the epoch-boundary probes). -/
noncomputable def epochProbeElements : List NasaElement :=
  [{ name := "a", value := some 1 }, { name := "e", value := some (1/10) },
   { name := "i", value := some 10 }, { name := "om", value := some 30 },
   { name := "w", value := some 40 }, { name := "ma", value := some 50 }]

/-- Claim C4: element extraction accepts an epoch exactly equal to
either bound of the supported Julian-date window `[2415020.5, 2488070.5]`
and rejects an epoch just outside it with the epoch-out-of-range error:
`2415020.5` and `2488070.5` succeed, `2415020.4` and `2488070.6` fail. -/
theorem extract_orbital_elements_epoch_boundary :
    extract_orbital_elements { epoch := some 2415020.5, elements := epochProbeElements } =
      .ok { semi_major_axis := 1, eccentricity := 1/10, inclination := 10,
            longitude_ascending_node := 30, argument_periapsis := 40,
            mean_anomaly := 50, epoch := 2415020.5 } ∧
    extract_orbital_elements { epoch := some 2488070.5, elements := epochProbeElements } =
      .ok { semi_major_axis := 1, eccentricity := 1/10, inclination := 10,
            longitude_ascending_node := 30, argument_periapsis := 40,
            mean_anomaly := 50, epoch := 2488070.5 } ∧
    extract_orbital_elements { epoch := some 2415020.4, elements := epochProbeElements } =
      .error .epochOutOfRange ∧
    extract_orbital_elements { epoch := some 2488070.6, elements := epochProbeElements } =
      .error .epochOutOfRange := by
  refine ⟨?_, ?_, ?_, ?_⟩
  all_goals simp only [extract_orbital_elements, epochProbeElements, lookupElement]
  all_goals simp
  all_goals norm_num [normAngle]

/-- In-range element list for the C8 pass checks. -/
noncomputable def inRangeElements : List NasaElement :=
  [{ name := "a", value := some 2 }, { name := "e", value := some (1/5) },
   { name := "i", value := some 45 }, { name := "om", value := some 100 },
   { name := "w", value := some 200 }, { name := "ma", value := some 300 }]

/-- Same list with eccentricity pushed to the excluded boundary `1.0`. -/
noncomputable def eccBoundaryElements : List NasaElement :=
  [{ name := "a", value := some 2 }, { name := "e", value := some 1 },
   { name := "i", value := some 45 }, { name := "om", value := some 100 },
   { name := "w", value := some 200 }, { name := "ma", value := some 300 }]

/-- Same list with inclination pushed out of range to `200`. -/
noncomputable def incOutOfRangeElements : List NasaElement :=
  [{ name := "a", value := some 2 }, { name := "e", value := some (1/5) },
   { name := "i", value := some 200 }, { name := "om", value := some 100 },
   { name := "w", value := some 200 }, { name := "ma", value := some 300 }]

/-- Claim C8: every out-of-domain boundary input is rejected with its
typed error — `diameterKm` 0 and 1500, `velocityKps` 0 and 150,
`density` 0 and 25000 by impact-parameter validation; eccentricity `1.0`
and inclination `200` by element extraction — while in-range inputs pass
the same checks. -/
theorem boundary_rejection :
    validate_impact_parameters 0 20 3000 = .error .diameterNotPositive ∧
    validate_impact_parameters 1500 20 3000 = .error .diameterTooLarge ∧
    validate_impact_parameters 1 0 3000 = .error .velocityNotPositive ∧
    validate_impact_parameters 1 150 3000 = .error .velocityTooHigh ∧
    validate_impact_parameters 1 20 0 = .error .densityNotPositive ∧
    validate_impact_parameters 1 20 25000 = .error .densityTooHigh ∧
    extract_orbital_elements { epoch := some 2461000.5, elements := eccBoundaryElements } =
      .error .invalidEccentricity ∧
    extract_orbital_elements { epoch := some 2461000.5, elements := incOutOfRangeElements } =
      .error .invalidInclination ∧
    validate_impact_parameters 1 20 3000 = .ok () ∧
    extract_orbital_elements { epoch := some 2461000.5, elements := inRangeElements } =
      .ok { semi_major_axis := 2, eccentricity := 1/5, inclination := 45,
            longitude_ascending_node := 100, argument_periapsis := 200,
            mean_anomaly := 300, epoch := 2461000.5 } := by
  refine ⟨?_, ?_, ?_, ?_, ?_, ?_, ?_, ?_, ?_, ?_⟩
  all_goals simp only [validate_impact_parameters, extract_orbital_elements, lookupElement,
    eccBoundaryElements, incOutOfRangeElements, inRangeElements]
  all_goals try simp
  all_goals norm_num [normAngle]

/-- Claim C2: for `end > start` and integer `numPoints ∈ [2, 10000]`,
`create_time_range` returns exactly `numPoints` points with
`point i = start + i * ((end - start) / (numPoints - 1))`; the first
point equals `start` exactly and the last equals `start + span`
exactly, by construction. -/
theorem create_time_range_spec (s e : ℝ) (n : ℤ)
    (hse : s < e) (h2 : 2 ≤ n) (hle : n ≤ 10000) :
    ∃ ts, create_time_range s e n = .ok ts ∧ (ts.length : ℤ) = n ∧
      (∀ i : ℕ, ∀ hi : i < ts.length,
        ts.get ⟨i, hi⟩ = s + (i : ℝ) * ((e - s) / ((n : ℝ) - 1))) ∧
      ts.head? = some s ∧ ts.getLast? = some (s + (e - s)) := by
  have hn0 : ¬ n ≤ 0 := by omega
  have hn2 : ¬ n < 2 := by omega
  have hnM : ¬ (10000 : ℤ) < n := by omega
  have hes : ¬ e ≤ s := not_le.mpr hse
  have hd : ¬ e - s ≤ 0 := by intro h; exact hes (by linarith)
  have htn : (2 : ℕ) ≤ n.toNat := by omega
  have hlen : (((List.range n.toNat).map
      (fun (i : ℕ) => s + (i : ℝ) * ((e - s) / ((n : ℝ) - 1)))).length : ℤ) = n := by
    simp
    omega
  have hne : ((List.range n.toNat).map
      (fun (i : ℕ) => s + (i : ℝ) * ((e - s) / ((n : ℝ) - 1)))).isEmpty = false := by
    simp [List.isEmpty_iff]
    omega
  refine ⟨_, ?_, hlen, ?_, ?_, ?_⟩
  · simp only [create_time_range, if_neg hn0, if_neg hn2, if_neg hnM, if_neg hes,
      if_neg hd, hne, hlen]
    simp
  · intro i hi
    simp only [List.get_eq_getElem, List.getElem_map, List.getElem_range]
  · have : n.toNat = (n.toNat - 1) + 1 := by omega
    rw [this, List.range_succ_eq_map]
    simp
  · have h1n : (1 : ℕ) ≤ n.toNat := by omega
    have hnn : ((n.toNat : ℕ) : ℝ) = (n : ℝ) := by
      have h := Int.toNat_of_nonneg (show (0 : ℤ) ≤ n by omega)
      exact_mod_cast congrArg (fun z : ℤ => (z : ℝ)) h
    have hne1 : (n : ℝ) - 1 ≠ 0 := by
      have h2r : (2 : ℝ) ≤ (n : ℝ) := by exact_mod_cast h2
      intro h; linarith
    have hstep : ((n.toNat - 1 : ℕ) : ℝ) * ((e - s) / ((n : ℝ) - 1)) = e - s := by
      rw [Nat.cast_sub h1n, Nat.cast_one, hnn, mul_comm, div_mul_cancel₀ _ hne1]
    have hm : n.toNat = (n.toNat - 1) + 1 := by omega
    rw [List.getLast?_map, hm, List.range_succ]
    simp [hstep]

/-- Witness for C2 at `start = 0`, `end = 730.5`, `numPoints = 3`. -/
theorem create_time_range_spec_witness :
    ((0 : ℝ) < 730.5 ∧ (2 : ℤ) ≤ 3 ∧ (3 : ℤ) ≤ 10000) ∧
    (∃ ts, create_time_range 0 730.5 3 = .ok ts ∧ (ts.length : ℤ) = 3 ∧
      (∀ i : ℕ, ∀ hi : i < ts.length,
        ts.get ⟨i, hi⟩ = 0 + (i : ℝ) * ((730.5 - 0) / ((((3 : ℤ)) : ℝ) - 1))) ∧
      ts.head? = some 0 ∧ ts.getLast? = some (0 + (730.5 - 0))) :=
  ⟨⟨by norm_num, by norm_num, by norm_num⟩,
    create_time_range_spec 0 730.5 3 (by norm_num) (by norm_num) (by norm_num)⟩

/-! ## Trajectory propagation loop (`calculate_trajectory`) -/

/-- A 3-D heliocentric position `[x, y, z]` in AU. -/
abbrev Point := ℝ × ℝ × ℝ

/-- The per-point propagation loop of `calculate_trajectory`:
`propagate` is the poliastro `orbit.propagate`-and-extract-position
oracle (`none` = that call raised).  On failure the loop appends the
previously appended coordinate — threaded here as `prev`, matching the
source's `coordinates[-1]` — or `[0,0,0]` when the list is still empty. -/
def propagatePoints (propagate : ℝ → Option Point) (prev : Option Point) :
    List ℝ → List Point
  | [] => []
  | t :: ts =>
    match propagate t with
    | some p => p :: propagatePoints propagate (some p) ts
    | none =>
      let q := prev.getD (0, 0, 0)
      q :: propagatePoints propagate (some q) ts

/-- The loop emits exactly one coordinate per time point, no matter
which propagation calls fail. -/
theorem propagatePoints_length (propagate : ℝ → Option Point) :
    ∀ (ts : List ℝ) (prev : Option Point),
      (propagatePoints propagate prev ts).length = ts.length := by
  intro ts
  induction ts with
  | nil => intro prev; rfl
  | cons t ts ih =>
    intro prev
    unfold propagatePoints
    cases propagate t <;> simp [ih]

/-- Dropping the last-element default through a cons. -/
theorem getLast?_cons_getD {α : Type} (a d : α) (l : List α) :
    (a :: l).getLast?.getD d = l.getLast?.getD a := by
  rw [show a :: l = [a] ++ l from rfl, List.getLast?_append]
  cases l.getLast? <;> simp

/-- Pointwise description of the loop: a successfully propagated point
is emitted as is; a failed point receives the most recent successfully
propagated coordinate, or the `prev` seed (defaulting to `[0,0,0]`)
when no earlier propagation succeeded. -/
theorem propagatePoints_get? (propagate : ℝ → Option Point) :
    ∀ (ts : List ℝ) (prev : Option Point) (i : ℕ) (t : ℝ), ts[i]? = some t →
      (propagatePoints propagate prev ts)[i]? =
        some (match propagate t with
          | some p => p
          | none =>
            (((ts.take i).filterMap propagate).getLast?).getD (prev.getD (0, 0, 0))) := by
  intro ts
  induction ts with
  | nil => intro prev i t ht; simp at ht
  | cons a ts ih =>
    intro prev i t ht
    match i with
    | 0 =>
      simp only [List.getElem?_cons_zero, Option.some.injEq] at ht
      subst ht
      simp only [propagatePoints]
      cases hpt : propagate a <;> simp [hpt]
    | (j + 1) =>
      simp only [List.getElem?_cons_succ] at ht
      simp only [propagatePoints]
      cases hpt : propagate a <;>
        simp only [List.getElem?_cons_succ, List.take_succ_cons, List.filterMap_cons, hpt]
      · rw [ih (some (prev.getD (0, 0, 0))) j t ht]
        simp
      · rw [ih (some _) j t ht]
        cases hq : propagate t <;> simp [getLast?_cons_getD]

/-- `calculate_trajectory(orbital_elements, num_points, times)`:
validates the elements, then either uses the provided shared time array
or generates an internal 2-year grid, and runs the propagation loop. -/
noncomputable def calculate_trajectory (propagate : ℝ → Option Point)
    (orbital_elements : OrbitalElements) (num_points : ℤ)
    (times : Option (List ℝ)) : Except CalcError (List Point) :=
  match validate_orbital_elements orbital_elements with
  | .error e => .error e
  | .ok _ =>
    match times with
    | some ts =>
      if ts.isEmpty then .error .emptyTimes
      else .ok (propagatePoints propagate none ts)
    | none =>
      match create_time_range orbital_elements.epoch
          (orbital_elements.epoch + 730.5) num_points with
      | .error e => .error e
      | .ok ts => .ok (propagatePoints propagate none ts)

/-- Claim C6: when asteroid propagation fails at a single grid point,
`calculate_trajectory` appends the previous valid coordinate if one
exists and `[0,0,0]` otherwise, never raising for that point; hence the
returned coordinate list has exactly one entry per grid point no matter
how many single-point propagation failures occur. -/
theorem calculate_trajectory_per_point_policy (propagate : ℝ → Option Point)
    (el : OrbitalElements) (n : ℤ) (ts : List ℝ)
    (hval : validate_orbital_elements el = .ok ()) (hts : ts ≠ []) :
    calculate_trajectory propagate el n (some ts) =
      .ok (propagatePoints propagate none ts) ∧
    (propagatePoints propagate none ts).length = ts.length ∧
    (∀ (i : ℕ) (t : ℝ), ts[i]? = some t →
      (propagatePoints propagate none ts)[i]? =
        some (match propagate t with
          | some p => p
          | none => (((ts.take i).filterMap propagate).getLast?).getD (0, 0, 0))) := by
  refine ⟨?_, propagatePoints_length propagate ts none, ?_⟩
  · simp [calculate_trajectory, hval, hts]
  · intro i t ht
    simpa using propagatePoints_get? propagate ts none i t ht

/-- Concrete validated elements for the C6 witness. -/
noncomputable def c6Elements : OrbitalElements :=
  { semi_major_axis := 1, eccentricity := 1/10, inclination := 10,
    longitude_ascending_node := 30, argument_periapsis := 40,
    mean_anomaly := 50, epoch := 2461000.5 }

/-- An always-failing propagation oracle for the C6 witness. -/
def c6Oracle : ℝ → Option Point := fun _ => none

/-- Witness for C6 on a two-point grid with a propagation oracle that
fails at every point. -/
theorem calculate_trajectory_per_point_policy_witness :
    (validate_orbital_elements c6Elements = .ok () ∧ ([(0 : ℝ), 1] : List ℝ) ≠ []) ∧
    (calculate_trajectory c6Oracle c6Elements 5 (some [0, 1]) =
        .ok (propagatePoints c6Oracle none [0, 1]) ∧
      (propagatePoints c6Oracle none [0, 1]).length = ([(0 : ℝ), 1] : List ℝ).length ∧
      (∀ (i : ℕ) (t : ℝ), (([(0 : ℝ), 1] : List ℝ))[i]? = some t →
        (propagatePoints c6Oracle none [0, 1])[i]? =
          some (match c6Oracle t with
            | some p => p
            | none =>
              ((((([(0 : ℝ), 1] : List ℝ)).take i).filterMap c6Oracle).getLast?).getD
                (0, 0, 0)))) :=
  ⟨⟨by norm_num [validate_orbital_elements, c6Elements], by simp⟩,
    calculate_trajectory_per_point_policy c6Oracle c6Elements 5 [0, 1]
      (by norm_num [validate_orbital_elements, c6Elements]) (by simp)⟩

/-! ## Earth trajectory (`get_earth_trajectory`) -/

/-- The circular-approximation fallback of the source: for a multi-point
request, `angle = 2π·(t − ref)/365.25`, position `(cos, sin, 0)`; a
single-point request falls back to `[1,0,0]`.  `ref` is the first time
point of the current grid. -/
noncomputable def fallbackPoint (ref t : ℝ) (total : ℕ) : Point :=
  if 1 < total then
    (Real.cos (2 * Real.pi * (t - ref) / 365.25),
     Real.sin (2 * Real.pi * (t - ref) / 365.25), 0)
  else (1, 0, 0)

/-- The per-point loop of `get_earth_trajectory`: first component the
coordinates, second the ephemeris-failure count.  `ephem` is the
poliastro `Orbit.from_body_ephem` + position-extraction oracle. -/
noncomputable def earthLoop (ephem : ℝ → Option Point) (ref : ℝ) (total : ℕ) :
    List ℝ → List Point × ℕ
  | [] => ([], 0)
  | t :: ts =>
    let rest := earthLoop ephem ref total ts
    match ephem t with
    | some p => (p :: rest.1, rest.2)
    | none => (fallbackPoint ref t total :: rest.1, rest.2 + 1)

/-- The loop emits exactly one coordinate per time point. -/
theorem earthLoop_fst_length (ephem : ℝ → Option Point) (ref : ℝ) (total : ℕ) :
    ∀ ts : List ℝ, (earthLoop ephem ref total ts).1.length = ts.length := by
  intro ts
  induction ts with
  | nil => rfl
  | cons t ts ih =>
    simp only [earthLoop]
    cases ephem t <;> simp [ih]

/-- The loop's failure counter counts exactly the points where the
ephemeris oracle fails. -/
theorem earthLoop_snd_count (ephem : ℝ → Option Point) (ref : ℝ) (total : ℕ) :
    ∀ ts : List ℝ,
      (earthLoop ephem ref total ts).2 =
        (ts.filter fun t => (ephem t).isNone).length := by
  intro ts
  induction ts with
  | nil => rfl
  | cons t ts ih =>
    simp only [earthLoop, List.filter_cons]
    cases ephem t <;> simp [ih]

/-- `get_earth_trajectory(times)`: per-point ephemeris lookup with
circular-approximation fallback, the source's defensive result checks,
and the >50% failure-rate degradation policy.  (The branch of the source
where ephemeris *and* fallback both fail cannot fire in this model: the
fallback's finiteness checks are vacuous.) -/
noncomputable def get_earth_trajectory (ephem : ℝ → Option Point) (times : List ℝ) :
    Except CalcError (List Point) :=
  match times with
  | [] => .error .emptyTimes
  | t0 :: rest =>
    let r := earthLoop ephem t0 (t0 :: rest).length (t0 :: rest)
    if r.1.isEmpty then .error .emptyTrajectory
    else if r.1.length ≠ (t0 :: rest).length then .error .pointCountMismatch
    else if 0 < r.2 ∧ ((r.2 : ℝ) / ((t0 :: rest).length : ℝ)) * 100 > 50 then
      .error .ephemerisDegraded
    else .ok r.1

/-- The source's floating `failure_rate > 50` test is the strict-majority
test `2·failures > total`. -/
theorem failure_rate_gt_50_iff (k n : ℕ) (hn : 1 ≤ n) :
    (0 < k ∧ ((k : ℝ) / (n : ℝ)) * 100 > 50) ↔ 2 * k > n := by
  have hn' : (0 : ℝ) < (n : ℝ) := by exact_mod_cast hn
  constructor
  · rintro ⟨-, hrate⟩
    rw [gt_iff_lt, div_mul_eq_mul_div, lt_div_iff₀ hn'] at hrate
    have : 50 * n < k * 100 := by exact_mod_cast hrate
    omega
  · intro h
    refine ⟨by omega, ?_⟩
    rw [gt_iff_lt, div_mul_eq_mul_div, lt_div_iff₀ hn']
    have : 50 * n < k * 100 := by omega
    exact_mod_cast this

/-- Claim C5: if the ephemeris fallback is used for strictly more than
50% of the requested time points, `get_earth_trajectory` fails with the
degradation error; at 50% or fewer it succeeds and returns exactly one
position per requested time point. -/
theorem get_earth_trajectory_degradation (ephem : ℝ → Option Point)
    (times : List ℝ) (hne : times ≠ []) :
    (2 * (times.filter fun t => (ephem t).isNone).length > times.length →
      get_earth_trajectory ephem times = .error .ephemerisDegraded) ∧
    (2 * (times.filter fun t => (ephem t).isNone).length ≤ times.length →
      ∃ coords, get_earth_trajectory ephem times = .ok coords ∧
        coords.length = times.length) := by
  obtain ⟨t0, rest, rfl⟩ : ∃ t0 rest, times = t0 :: rest := by
    cases times with
    | nil => exact absurd rfl hne
    | cons a l => exact ⟨a, l, rfl⟩
  have hlen1 : 1 ≤ (t0 :: rest).length := by simp
  have hflen := earthLoop_fst_length ephem t0 (t0 :: rest).length (t0 :: rest)
  have hcnt := earthLoop_snd_count ephem t0 (t0 :: rest).length (t0 :: rest)
  have hnotEmpty :
      ¬ ((earthLoop ephem t0 (t0 :: rest).length (t0 :: rest)).1.isEmpty = true) := by
    rw [List.isEmpty_iff]
    intro h
    rw [h] at hflen
    simp at hflen
  have hrate := failure_rate_gt_50_iff
    (earthLoop ephem t0 (t0 :: rest).length (t0 :: rest)).2 (t0 :: rest).length hlen1
  constructor
  · intro hmaj
    have hcond : 0 < (earthLoop ephem t0 (t0 :: rest).length (t0 :: rest)).2 ∧
        (((earthLoop ephem t0 (t0 :: rest).length (t0 :: rest)).2 : ℝ) /
          (((t0 :: rest).length : ℕ) : ℝ)) * 100 > 50 :=
      hrate.mpr (by omega)
    simp only [get_earth_trajectory, if_neg hnotEmpty, if_neg (not_not_intro hflen),
      if_pos hcond]
  · intro hmin
    have hcond : ¬ (0 < (earthLoop ephem t0 (t0 :: rest).length (t0 :: rest)).2 ∧
        (((earthLoop ephem t0 (t0 :: rest).length (t0 :: rest)).2 : ℝ) /
          (((t0 :: rest).length : ℕ) : ℝ)) * 100 > 50) := by
      intro hc
      have := hrate.mp hc
      omega
    refine ⟨(earthLoop ephem t0 (t0 :: rest).length (t0 :: rest)).1, ?_, hflen⟩
    simp only [get_earth_trajectory, if_neg hnotEmpty, if_neg (not_not_intro hflen),
      if_neg hcond]

/-- An always-failing ephemeris oracle for the C5 witness. -/
def c5Oracle : ℝ → Option Point := fun _ => none

/-- Witness for C5: with both of two points forced onto the fallback
(100% > 50%), the whole call fails with the degradation error. -/
theorem get_earth_trajectory_degradation_witness :
    (([(0 : ℝ), 1] : List ℝ) ≠ [] ∧
      2 * (([(0 : ℝ), 1] : List ℝ).filter fun t => (c5Oracle t).isNone).length >
        ([(0 : ℝ), 1] : List ℝ).length) ∧
    get_earth_trajectory c5Oracle [0, 1] = .error .ephemerisDegraded :=
  ⟨⟨by simp, by simp [c5Oracle]⟩,
    (get_earth_trajectory_degradation c5Oracle [0, 1] (by simp)).1
      (by simp [c5Oracle])⟩

/-! ## Synchronized trajectories (`calculate_both_trajectories`) -/

/-- `SynchronizedTrajectoryResult`: the dictionary with the
`asteroid_path` and `earth_path` coordinate arrays. -/
structure TrajResult where
  asteroid_path : List Point
  earth_path : List Point

/-- `calculate_both_trajectories(orbital_elements, num_points)`: input
and epoch validation, one shared 2-year time grid, the two trajectory
computations over that same grid, and the defensive synchronization
checks, in source order. -/
noncomputable def calculate_both_trajectories (propagate ephem : ℝ → Option Point)
    (orbital_elements : OrbitalElements) (num_points : ℤ) :
    Except CalcError TrajResult :=
  if num_points ≤ 0 then .error .invalidPointCount
  else if orbital_elements.epoch < 2415020.5 ∨ orbital_elements.epoch > 2488070.5 then
    .error .epochOutOfRange
  else
    match create_time_range orbital_elements.epoch (orbital_elements.epoch + 730.5)
        num_points with
    | .error e => .error e
    | .ok shared_times =>
      if shared_times.isEmpty then .error .emptyTimes
      else if (shared_times.length : ℤ) ≠ num_points then .error .timeCountMismatch
      else
        match calculate_trajectory propagate orbital_elements num_points
            (some shared_times) with
        | .error e => .error e
        | .ok asteroid_path =>
          if asteroid_path.isEmpty then .error .emptyTrajectory
          else
            match get_earth_trajectory ephem shared_times with
            | .error e => .error e
            | .ok earth_path =>
              if earth_path.isEmpty then .error .emptyTrajectory
              else if asteroid_path.length ≠ earth_path.length then
                .error .syncLengthMismatch
              else if (asteroid_path.length : ℤ) ≠ num_points then
                .error .pointCountMismatch
              else .ok { asteroid_path := asteroid_path, earth_path := earth_path }

/-- Claim C1: for every `OrbitalElements` value satisfying the
data-model invariant and every integer `numPoints ∈ [2, 10000]`, a
successful `calculate_both_trajectories` call returns paths that both
have length exactly `numPoints`; any internal length mismatch takes an
error branch instead of returning. -/
theorem calculate_both_trajectories_sync (propagate ephem : ℝ → Option Point)
    (el : OrbitalElements) (n : ℤ) (res : TrajResult)
    (_hval : ElementsValid el) (_h2 : 2 ≤ n) (_hle : n ≤ 10000)
    (hok : calculate_both_trajectories propagate ephem el n = .ok res) :
    (res.asteroid_path.length : ℤ) = n ∧ (res.earth_path.length : ℤ) = n := by
  unfold calculate_both_trajectories at hok
  repeat' split at hok
  all_goals try simp at hok
  subst hok
  dsimp only
  push_neg at *
  omega

/-- Concrete validated elements for the C1 witness. -/
noncomputable def c1Elements : OrbitalElements :=
  { semi_major_axis := 1, eccentricity := 1/10, inclination := 10,
    longitude_ascending_node := 30, argument_periapsis := 40,
    mean_anomaly := 50, epoch := 2461000.5 }

/-- An always-succeeding propagation/ephemeris oracle for the C1 witness. -/
noncomputable def c1Oracle : ℝ → Option Point := fun _ => some (1, 0, 0)

/-- The concrete result of the C1 witness call. -/
noncomputable def c1Result : TrajResult :=
  { asteroid_path := [(1, 0, 0), (1, 0, 0)], earth_path := [(1, 0, 0), (1, 0, 0)] }

/-- Witness for C1 at `numPoints = 2` with always-succeeding oracles. -/
theorem calculate_both_trajectories_sync_witness :
    (ElementsValid c1Elements ∧ (2 : ℤ) ≤ 2 ∧ (2 : ℤ) ≤ 10000 ∧
      calculate_both_trajectories c1Oracle c1Oracle c1Elements 2 = .ok c1Result) ∧
    ((c1Result.asteroid_path.length : ℤ) = 2 ∧ (c1Result.earth_path.length : ℤ) = 2) :=
  have hval : ElementsValid c1Elements := by
    norm_num [ElementsValid, c1Elements]
  have hok : calculate_both_trajectories c1Oracle c1Oracle c1Elements 2 = .ok c1Result := by
    norm_num [calculate_both_trajectories, c1Elements, c1Oracle, c1Result,
      create_time_range, calculate_trajectory, validate_orbital_elements,
      propagatePoints, get_earth_trajectory, earthLoop, List.range_succ,
      (show Int.toNat 2 = 2 from rfl)]
  ⟨⟨hval, by norm_num, by norm_num, hok⟩,
    calculate_both_trajectories_sync c1Oracle c1Oracle c1Elements 2 c1Result
      hval (by norm_num) (by norm_num) hok⟩

/-! ## Deflection simulator (`calculate_deflected_trajectory`) -/

/-- Euclidean magnitude of a velocity vector (`np.linalg.norm`). -/
noncomputable def vmag (v : Point) : ℝ :=
  Real.sqrt (v.1 ^ 2 + v.2.1 ^ 2 + v.2.2 ^ 2)

/-- Componentwise vector scaling. -/
def vscale (c : ℝ) (v : Point) : Point := (c * v.1, c * v.2.1, c * v.2.2)

/-- Componentwise vector addition. -/
def vadd (u v : Point) : Point := (u.1 + v.1, u.2.1 + v.2.1, u.2.2 + v.2.2)

/-- Position + velocity state at the maneuver instant (the poliastro
orbit propagated to the deflection time). -/
structure StateVec where
  r : Point
  v : Point

/-- The post-maneuver scalar elements read back from the poliastro
orbit reconstructed from vectors. -/
structure DeflectedElems where
  a : ℝ
  e : ℝ
  i : ℝ
  raan : ℝ
  argp : ℝ
  nu : ℝ

/-- The success payload of `calculate_deflected_trajectory`. -/
structure DeflectionResult where
  delta_v_applied_mps : ℝ
  deflection_time_days : ℝ
  original_elements : OrbitalElements
  deflected_elements : DeflectedElems
  deflected_path : List Point
  path_points : ℕ

/-- The deflected-orbit sampling grid of the source:
`deflected_orbit.epoch + i * (365 days / num_points)` for
`i ∈ [0, num_points)`, where the maneuver epoch is
`epoch + days_from_epoch`. -/
noncomputable def deflectionTimes (epoch_d : ℝ) (num_points : ℤ) : List ℝ :=
  (List.range num_points.toNat).map
    fun (i : ℕ) => epoch_d + (i : ℝ) * (365 / (num_points : ℝ))

/-- `calculate_deflected_trajectory(asteroid_name, delta_v_mps,
days_from_epoch, num_points)`.  Oracles: `fetched` is the NASA-client
response for the asteroid name (`none` = the fetch raised),
`propagateToDeflection` the poliastro propagation of the original orbit
to the maneuver instant, `fromVectors` the state-vector → orbit
conversion (whose new scalar elements the source reads back), and
`propagateDeflected` the per-sample propagation of the deflected orbit.
The outer handler of the source wraps every upstream failure in the one
deflection-failure error; per-sample propagation failures are skipped
(`continue`). -/
noncomputable def calculate_deflected_trajectory
    (fetched : Option NasaResponse) (propagateToDeflection : Option StateVec)
    (fromVectors : Point → Point → DeflectedElems)
    (propagateDeflected : ℝ → Option Point)
    (delta_v_mps days_from_epoch : ℝ) (num_points : ℤ) :
    Except CalcError DeflectionResult :=
  match fetched with
  | none => .error .deflectionFailed
  | some resp =>
    match extract_orbital_elements resp with
    | .error _ => .error .deflectionFailed
    | .ok orbital_elements =>
      match propagateToDeflection with
      | none => .error .deflectionFailed
      | some state =>
        let v_magnitude := vmag state.v
        let v_direction := vscale (1 / v_magnitude) state.v
        let delta_v_kms := delta_v_mps / 1000
        let new_v := vadd state.v (vscale delta_v_kms v_direction)
        let new_elements := fromVectors state.r new_v
        let times := deflectionTimes (orbital_elements.epoch + days_from_epoch)
          num_points
        let deflected_path := times.filterMap propagateDeflected
        .ok { delta_v_applied_mps := delta_v_mps
              deflection_time_days := days_from_epoch
              original_elements := orbital_elements
              deflected_elements := new_elements
              deflected_path := deflected_path
              path_points := deflected_path.length }

/-- Keeping a point per success: the kept points and the failed points
split the sample grid. -/
theorem length_filterMap_add_count (f : ℝ → Option Point) :
    ∀ l : List ℝ,
      (l.filterMap f).length + (l.filter fun t => (f t).isNone).length = l.length := by
  intro l
  induction l with
  | nil => rfl
  | cons t ts ih =>
    simp only [List.filterMap_cons, List.filter_cons]
    cases f t <;> simp [ih] <;> omega

/-- Claim C7: for `deltaV > 0`, `daysFromEpoch > 0` and `numPoints ≥ 1`,
once the element fetch, extraction and initial propagation succeed, the
deflection simulator samples the post-burn orbit at `numPoints` points
spanning 365 days from the maneuver instant and always returns
successfully, with each single-point propagation failure skipped —
shortening the path by one — rather than failing the call. -/
theorem calculate_deflected_trajectory_skips
    (fetched : Option NasaResponse) (propagateToDeflection : Option StateVec)
    (fromVectors : Point → Point → DeflectedElems)
    (propagateDeflected : ℝ → Option Point)
    (resp : NasaResponse) (el : OrbitalElements) (state : StateVec)
    (dv days : ℝ) (n : ℤ)
    (hfetch : fetched = some resp) (hex : extract_orbital_elements resp = .ok el)
    (hprop : propagateToDeflection = some state)
    (_hdv : 0 < dv) (_hdays : 0 < days) (hn : 1 ≤ n) :
    ∃ res, calculate_deflected_trajectory fetched propagateToDeflection
        fromVectors propagateDeflected dv days n = .ok res ∧
      res.deflected_path = (deflectionTimes (el.epoch + days) n).filterMap
        propagateDeflected ∧
      res.deflected_path.length +
          ((deflectionTimes (el.epoch + days) n).filter
            fun t => (propagateDeflected t).isNone).length =
        (deflectionTimes (el.epoch + days) n).length ∧
      ((deflectionTimes (el.epoch + days) n).length : ℤ) = n ∧
      (∀ (i : ℕ) (t : ℝ), (deflectionTimes (el.epoch + days) n)[i]? = some t →
        t = el.epoch + days + (i : ℝ) * (365 / (n : ℝ))) := by
  subst hfetch
  subst hprop
  refine ⟨{ delta_v_applied_mps := dv, deflection_time_days := days,
            original_elements := el,
            deflected_elements := fromVectors state.r
              (vadd state.v (vscale (dv / 1000) (vscale (1 / vmag state.v) state.v))),
            deflected_path := (deflectionTimes (el.epoch + days) n).filterMap
              propagateDeflected,
            path_points := ((deflectionTimes (el.epoch + days) n).filterMap
              propagateDeflected).length },
    ?_, rfl, length_filterMap_add_count propagateDeflected _, ?_, ?_⟩
  · simp only [calculate_deflected_trajectory, hex]
  · simp only [deflectionTimes, List.length_map, List.length_range]
    omega
  · intro i t ht
    simp only [deflectionTimes, List.getElem?_map] at ht
    by_cases hi : i < n.toNat
    · rw [List.getElem?_range hi] at ht
      simp only [Option.map_some'] at ht
      exact (Option.some.inj ht).symm
    · rw [List.getElem?_eq_none (by simp; omega)] at ht
      exact absurd ht (by simp)

/-- NASA response used by the C7 witness. -/
noncomputable def c7Response : NasaResponse :=
  { epoch := some 2461000.5,
    elements := [{ name := "a", value := some 1 }, { name := "e", value := some (1/10) },
                 { name := "i", value := some 10 }, { name := "om", value := some 30 },
                 { name := "w", value := some 40 }, { name := "ma", value := some 50 }] }

/-- The elements extracted from the C7 response. -/
noncomputable def c7Elements : OrbitalElements :=
  { semi_major_axis := 1, eccentricity := 1/10, inclination := 10,
    longitude_ascending_node := 30, argument_periapsis := 40,
    mean_anomaly := 50, epoch := 2461000.5 }

/-- Maneuver-instant state for the C7 witness. -/
noncomputable def c7State : StateVec := { r := (1, 0, 0), v := (0, 1, 0) }

/-- Vector-to-elements oracle for the C7 witness. -/
noncomputable def c7FromVectors : Point → Point → DeflectedElems :=
  fun _ _ => { a := 1, e := 0, i := 0, raan := 0, argp := 0, nu := 0 }

/-- A per-sample propagation oracle failing at every sample. -/
def c7Oracle : ℝ → Option Point := fun _ => none

/-- Witness for C7 at `deltaV = 5`, `days = 10`, `numPoints = 1`: every
per-sample propagation fails, yet the call succeeds with a shortened
(empty) path. -/
theorem calculate_deflected_trajectory_skips_witness :
    (extract_orbital_elements c7Response = .ok c7Elements ∧
      (0 : ℝ) < 5 ∧ (0 : ℝ) < 10 ∧ (1 : ℤ) ≤ 1) ∧
    (∃ res, calculate_deflected_trajectory (some c7Response) (some c7State)
        c7FromVectors c7Oracle 5 10 1 = .ok res ∧
      res.deflected_path =
        (deflectionTimes (c7Elements.epoch + 10) 1).filterMap c7Oracle ∧
      res.deflected_path.length +
          ((deflectionTimes (c7Elements.epoch + 10) 1).filter
            fun t => (c7Oracle t).isNone).length =
        (deflectionTimes (c7Elements.epoch + 10) 1).length ∧
      ((deflectionTimes (c7Elements.epoch + 10) 1).length : ℤ) = 1 ∧
      (∀ (i : ℕ) (t : ℝ), (deflectionTimes (c7Elements.epoch + 10) 1)[i]? = some t →
        t = c7Elements.epoch + 10 + (i : ℝ) * (365 / (((1 : ℤ)) : ℝ)))) :=
  have hex : extract_orbital_elements c7Response = .ok c7Elements := by
    simp only [extract_orbital_elements, c7Response, c7Elements, lookupElement]
    try simp
    try norm_num [normAngle]
  ⟨⟨hex, by norm_num, by norm_num, by norm_num⟩,
    calculate_deflected_trajectory_skips (some c7Response) (some c7State)
      c7FromVectors c7Oracle c7Response c7Elements c7State 5 10 1 rfl hex rfl
      (by norm_num) (by norm_num) (by norm_num)⟩

/-! ## Prograde-burn division safety -/

/-- Modelled from the spec: the propagation feeding the prograde-burn
velocity is performed by the external poliastro two-body propagator
(spec §4.3, "standard two-body Kepler propagation"), whose code is not
part of this repository.  On an elliptical Keplerian orbit the
heliocentric distance at eccentric anomaly `E` is `r = a·(1 − e·cos E)`. -/
noncomputable def orbitRadius (a e E : ℝ) : ℝ := a * (1 - e * Real.cos E)

/-- Modelled from the spec: the squared two-body orbital speed given by
the vis-viva relation `v² = μ·(2/r − 1/a)` of standard two-body
mechanics (spec §4.3 and glossary, "two-body propagation"). -/
noncomputable def visVivaSpeedSq (μ a r : ℝ) : ℝ := μ * (2 / r - 1 / a)

/-- On a validated elliptical orbit (`a > 0`, `0 ≤ e < 1`) the two-body
speed is strictly positive at every point of the orbit. -/
theorem visVivaSpeedSq_pos (μ a e E : ℝ) (hμ : 0 < μ) (ha : 0 < a)
    (he0 : 0 ≤ e) (he1 : e < 1) :
    0 < visVivaSpeedSq μ a (orbitRadius a e E) := by
  have hcos1 := Real.cos_le_one E
  have hcos2 := Real.neg_one_le_cos E
  have hup : e * Real.cos E ≤ e := by
    calc e * Real.cos E ≤ e * 1 := mul_le_mul_of_nonneg_left hcos1 he0
    _ = e := mul_one e
  have hlo : -e ≤ e * Real.cos E := by
    calc -e = e * (-1) := by ring
    _ ≤ e * Real.cos E := mul_le_mul_of_nonneg_left hcos2 he0
  have hr0 : 0 < orbitRadius a e E := by
    unfold orbitRadius
    exact mul_pos ha (by linarith)
  have hr2 : orbitRadius a e E < 2 * a := by
    unfold orbitRadius
    calc a * (1 - e * Real.cos E) < a * 2 :=
      mul_lt_mul_of_pos_left (by linarith) ha
    _ = 2 * a := by ring
  have h2r : 1 / a < 2 / orbitRadius a e E := by
    rw [div_lt_div_iff₀ ha hr0]
    nlinarith
  unfold visVivaSpeedSq
  have : 0 < 2 / orbitRadius a e E - 1 / a := by linarith
  exact mul_pos hμ this

/-- Claim C10: the division by `v_magnitude` forming the prograde unit
vector in the deflection simulator is safe — for validated elements
(`a > 0`, `e ∈ [0,1)`) the two-body orbital speed at any propagated
instant is strictly positive, so the magnitude of any velocity vector
realizing that speed is nonzero and `v_direction = vscale (1/vmag v) v`
never divides by zero. -/
theorem deflection_prograde_division_safe (μ a e E : ℝ) (v : Point)
    (hμ : 0 < μ) (ha : 0 < a) (he0 : 0 ≤ e) (he1 : e < 1)
    (hv : v.1 ^ 2 + v.2.1 ^ 2 + v.2.2 ^ 2 = visVivaSpeedSq μ a (orbitRadius a e E)) :
    vmag v ≠ 0 := by
  have hpos := visVivaSpeedSq_pos μ a e E hμ ha he0 he1
  unfold vmag
  exact ne_of_gt (Real.sqrt_pos.mpr (by rw [hv]; exact hpos))

/-- Witness for C10 on the circular orbit `μ = a = 1`, `e = 0`, at
`E = 0`, with velocity `(1, 0, 0)` realizing the vis-viva speed. -/
theorem deflection_prograde_division_safe_witness :
    ((0 : ℝ) < 1 ∧ (0 : ℝ) ≤ 0 ∧ (0 : ℝ) < 1 ∧
      (((1 : ℝ), (0 : ℝ), (0 : ℝ)) : Point).1 ^ 2 +
          (((1 : ℝ), (0 : ℝ), (0 : ℝ)) : Point).2.1 ^ 2 +
          (((1 : ℝ), (0 : ℝ), (0 : ℝ)) : Point).2.2 ^ 2 =
        visVivaSpeedSq 1 1 (orbitRadius 1 0 0)) ∧
    vmag (1, 0, 0) ≠ 0 :=
  ⟨⟨by norm_num, by norm_num, by norm_num,
      by norm_num [visVivaSpeedSq, orbitRadius]⟩,
    deflection_prograde_division_safe 1 1 0 0 (1, 0, 0) (by norm_num) (by norm_num)
      (by norm_num) (by norm_num) (by norm_num [visVivaSpeedSq, orbitRadius])⟩
